import Mathlib

/-!
Shallow embedding of `connector_odoo/components/importer.py` (class
`OdooImporter`): the record-import pipeline `run`, the staleness check
`_is_uptodate`, and the dependency import `_import_dependency`.

Modelling conventions:
* Timestamps are `Nat` (the code compares parsed datetimes with `<`).
* Python falsy attribute values (`False`/`None`/missing attribute, empty
  recordset, empty string) are `Option.none` / `""`.
* Collaborators of the importer (backend adapter `read`, the `_must_skip`
  hook, the mapper, the `_import_dependencies` hook) are function fields of
  an `Env`; the mutable shared state (the binder's id-to-binding table, the
  set of advisory locks held by other in-flight transactions, the next
  database id) is a `World` that is threaded explicitly.
* Calls that the importer makes on its collaborators are recorded in a trace
  of `Event`s, so that "exactly once" / ordering claims are statements about
  the trace.
* Exceptions become `Except`: `IDMissingInBackend` from the adapter,
  `RetryableJobError` from the advisory lock, `NothingToDoJob` from a nested
  run, and a catch-all for collaborator failures.
-/

/-- The data the backend adapter returns for one external record.
`write_date` is the last-modified timestamp: `none` when the attribute is
absent or falsy (`not hasattr(self.odoo_record, "write_date") or not
self.odoo_record.write_date`). -/
structure RawRecord where
  write_date : Option Nat
  deriving Repr, DecidableEq

/-- A binding: the local record linking an internal entity (`id`) to an
external id; `sync_date` is `none` when unset (falsy in the code). -/
structure Binding where
  id : Nat
  sync_date : Option Nat
  deriving Repr, DecidableEq

/-- Errors the backend adapter's `read` can raise:
`IDMissingInBackend` or any other failure. -/
inductive AdapterError where
  | idMissingInBackend
  | adapterFailure (msg : String)
  deriving Repr, DecidableEq

/-- Exceptions that can propagate out of `run` / `_import_dependency`:
`RetryableJobError` from `advisory_lock_or_retry` (carrying the lock key),
`NothingToDoJob`, and any other exception. -/
inductive ImpError where
  | retry (key : String)
  | nothingToDo
  | other (msg : String)
  deriving Repr, DecidableEq

/-- Field values produced by the mapper (`MapRecord.values`); the pipeline
only passes them through, so they are opaque pairs. -/
def ImportData := List (String × String)
deriving instance Repr, DecidableEq for ImportData

/-- The shared mutable state one `run` executes against:
the binder's table for the model being imported (external id to binding,
head entry shadows later ones), the advisory-lock keys currently held by
in-flight transactions, and the next fresh internal id `create` would use. -/
structure World where
  binder : List (String × Binding)
  locks : List String
  next_id : Nat
  deriving Repr, DecidableEq

/-- The importer's collaborators and identity
(`self.backend_record`, `self.work`, hooks). `deps` is the
`_import_dependencies` hook: the base class's default is
`fun w => .ok w` (it does nothing), a concrete importer may import
dependency records, which changes the world or raises. -/
structure Env where
  backend_name : String
  backend_id : Nat
  model_name : String
  now : Nat
  read : String → Except AdapterError RawRecord
  must_skip : RawRecord → String → Option String
  map_values : RawRecord → Bool → ImportData
  deps : World → Except ImpError World

/-- Calls `run` makes on its collaborators, in order. -/
inductive Event where
  | readE (external_id : String)
  | toInternalE (external_id : String)
  | lockE (key : String)
  | updateE (binding_id : Nat) (data : ImportData)
  | createE (binding_id : Nat) (data : ImportData)
  | bindE (external_id : String) (binding_id : Nat)
  deriving Repr, DecidableEq

/-- Python truthiness of an optional string: `None` and `""` are falsy. -/
def truthyStr : Option String → Bool
  | none => false
  | some s => s != ""

/-- `binder.to_internal(external_id)`: look the external id up in the
binder table. -/
def to_internal (w : World) (external_id : String) : Option Binding :=
  w.binder.lookup external_id

/-- Modelled from the spec: `binder.bind(external_id, binding)` is supplied
by the connector framework (not part of this source file); it records the
external-id-to-binding link and refreshes the binding's synchronization
timestamp to "now". -/
def binder_bind (env : Env) (w : World) (external_id : String) (b : Binding) : World :=
  { w with binder := (external_id, { b with sync_date := some env.now }) :: w.binder }

/-- Modelled from the spec: `advisory_lock_or_retry(lock_name)` is supplied
by the connector framework (not part of this source file); it acquires the
transaction-scoped exclusive advisory lock for the key, or signals that the
whole unit of work must be retried when another transaction already holds
it. The lock is only released at transaction end, never by the importer. -/
def advisory_lock_or_retry (w : World) (key : String) : Except Unit World :=
  if key ∈ w.locks then .error () else .ok { w with locks := key :: w.locks }

/-- The lock key `run` builds:
`"import({}, {}, {}, {})".format(backend_record._name, backend_record.id,
work.model_name, external_id)`. -/
def mkLockName (backend_name : String) (backend_id : Nat)
    (model_name : String) (external_id : String) : String :=
  "import(" ++ backend_name ++ ", " ++ toString backend_id ++ ", "
    ++ model_name ++ ", " ++ external_id ++ ")"

/-- `OdooImporter._is_uptodate(binding)`: `True` (skip) only when the raw
record has a truthy `write_date`, the binding exists, its `sync_date` is
set, and `write_date < sync_date`; in every other case a falsy value is
returned. -/
def is_uptodate (odoo_record : RawRecord) (binding : Option Binding) : Bool :=
  match odoo_record.write_date with
  | none => false
  | some odoo_date =>
    match binding with
    | none => false
    | some b =>
      match b.sync_date with
      | none => false
      | some sync_date => decide (odoo_date < sync_date)

/-- `OdooImporter.run(external_id, force=False)`.
Returns the outcome (`Except` for a propagated exception; inside it the
optional informational message `run` returns), the resulting world, and the
trace of collaborator calls. Faithful to the source:
* `adapter.read` raising `IDMissingInBackend` yields the message
  `"Record does no longer exist in Odoo"`;
* `if self._must_skip(): return` returns `none` (the reason is discarded);
* the binding is looked up once, then `if not force and
  self._is_uptodate(binding)` returns `"Already up-to-date."`;
* the advisory lock is taken (or the run aborts with a retry signal);
* `_import_dependencies` runs (default hook: nothing);
* `_update` on the looked-up binding, or `_create` of a fresh one;
* `binder.bind(external_id, binding)` in both branches.
(`_before_import`, `_validate_data` and `_after_import` are no-op default
hooks in the source and are not modelled.) -/
def run (env : Env) (w : World) (external_id : String) (force : Bool) :
    Except ImpError (Option String) × World × List Event :=
  let lock_name := mkLockName env.backend_name env.backend_id env.model_name external_id
  match env.read external_id with
  | .error .idMissingInBackend =>
      (.ok (some "Record does no longer exist in Odoo"), w, [.readE external_id])
  | .error (.adapterFailure m) =>
      (.error (.other m), w, [.readE external_id])
  | .ok odoo_record =>
    if truthyStr (env.must_skip odoo_record external_id) then
      (.ok none, w, [.readE external_id])
    else
      let binding := to_internal w external_id
      if !force && is_uptodate odoo_record binding then
        (.ok (some "Already up-to-date."), w,
          [.readE external_id, .toInternalE external_id])
      else
        match advisory_lock_or_retry w lock_name with
        | .error _ =>
            (.error (.retry lock_name), w,
              [.readE external_id, .toInternalE external_id])
        | .ok w1 =>
          match env.deps w1 with
          | .error e =>
              (.error e, w1,
                [.readE external_id, .toInternalE external_id, .lockE lock_name])
          | .ok w2 =>
            match binding with
            | some b =>
                let record := env.map_values odoo_record false
                let w3 := binder_bind env w2 external_id b
                (.ok none, w3,
                  [.readE external_id, .toInternalE external_id, .lockE lock_name,
                   .updateE b.id record, .bindE external_id b.id])
            | none =>
                let record := env.map_values odoo_record true
                let newb : Binding := { id := w2.next_id, sync_date := none }
                let w3 := binder_bind env { w2 with next_id := w2.next_id + 1 }
                    external_id newb
                (.ok none, w3,
                  [.readE external_id, .toInternalE external_id, .lockE lock_name,
                   .createE newb.id record, .bindE external_id newb.id])

/-- `OdooImporter._import_dependency` (with the default nested importer
and its `binding_model` argument elided) for a dependency of the same model/binder
table. Returns the outer outcome, the resulting world, and the nested
`run`'s result when the nested importer was invoked (`none` when the call
was a no-op). Faithful to the source: empty external id is a no-op; the
nested `run` is invoked (with `force` left at its default `False`) iff
`always or not binder.to_internal(external_id)`; only `NothingToDoJob`
raised by that `run` is caught (and logged); everything else propagates. -/
def import_dependency (env : Env) (w : World) (external_id : String) (always : Bool) :
    Except ImpError Unit × World × Option (Except ImpError (Option String)) :=
  if external_id = "" then (.ok (), w, none)
  else if always || (to_internal w external_id).isNone then
    match run env w external_id false with
    | (.error .nothingToDo, w1, _) => (.ok (), w1, some (.error .nothingToDo))
    | (.error e, w1, _) => (.error e, w1, some (.error e))
    | (.ok r, w1, _) => (.ok (), w1, some (.ok r))
  else
    (.ok (), w, none)

/-- Is the event an `_update` call? -/
def isUpdateE : Event → Bool
  | .updateE _ _ => true
  | _ => false

/-- Is the event a `_create` call? -/
def isCreateE : Event → Bool
  | .createE _ _ => true
  | _ => false

/-- Is the event a `binder.bind` call? -/
def isBindE : Event → Bool
  | .bindE _ _ => true
  | _ => false

/-- Is the event an advisory-lock acquisition? -/
def isLockE : Event → Bool
  | .lockE _ => true
  | _ => false

/-- Is the event a `binder.to_internal` call for this external id? -/
def isToInternalE (external_id : String) : Event → Bool
  | .toInternalE e => e == external_id
  | _ => false

/-! ## Helper lemmas -/

/-- Characterisation of `_is_uptodate` returning a truthy value. -/
theorem is_uptodate_true_iff (r : RawRecord) (ob : Option Binding) :
    is_uptodate r ob = true ↔
      ∃ m, r.write_date = some m ∧ ∃ b, ob = some b ∧
        ∃ s, b.sync_date = some s ∧ m < s := by
  unfold is_uptodate
  cases hw : r.write_date with
  | none => simp
  | some m =>
    cases ob with
    | none => simp
    | some b =>
      cases hs : b.sync_date with
      | none => simp [hs]
      | some s => simp [hs]

/-! ## Sample environments and worlds (used by the witnesses) -/

/-- A raw record whose last-modified timestamp is 5. -/
def rec5 : RawRecord := { write_date := some 5 }

/-- Environment whose adapter always returns `rec5`, with the default
hooks (`_must_skip` returns `None`, `_import_dependencies` does nothing). -/
def envOk : Env :=
  { backend_name := "odoo.backend", backend_id := 1, model_name := "res.partner",
    now := 100,
    read := fun _ => .ok rec5,
    must_skip := fun _ _ => none,
    map_values := fun _ _ => [],
    deps := fun w => .ok w }

/-- The empty world: nothing bound, no lock held. -/
def w0 : World := { binder := [], locks := [], next_id := 1 }

/-- World where `"ext-7"` is bound with `sync_date = 9`, newer than
`rec5`'s `write_date = 5`. -/
def wBound : World :=
  { binder := [("ext-7", { id := 3, sync_date := some 9 })], locks := [], next_id := 4 }

/-! ## C1 -/

/-- C1: a `run(external_id, force=False)` that fetched its record and was
not stopped by the must-skip hook terminates with the `"Already
up-to-date."` outcome iff the raw record carries a last-modified timestamp,
a binding for the external id exists, its `sync_date` is set, and the
`sync_date` is strictly greater than the last-modified timestamp; in every
other case the up-to-date check does not skip. -/
theorem run_uptodate_skip_iff (env : Env) (w : World) (eid : String) (r : RawRecord)
    (hread : env.read eid = .ok r)
    (hskip : truthyStr (env.must_skip r eid) = false) :
    (run env w eid false).1 = .ok (some "Already up-to-date.") ↔
      ∃ m, r.write_date = some m ∧ ∃ b, to_internal w eid = some b ∧
        ∃ s, b.sync_date = some s ∧ m < s := by
  rw [← is_uptodate_true_iff r (to_internal w eid)]
  unfold run
  rw [hread]
  simp only [hskip, Bool.false_eq_true, if_false, Bool.not_false, Bool.true_and]
  cases hu : is_uptodate r (to_internal w eid) with
  | true => simp [hu]
  | false =>
    simp only [hu, Bool.false_eq_true, if_false, iff_false]
    intro h
    cases hl : advisory_lock_or_retry w
        (mkLockName env.backend_name env.backend_id env.model_name eid) with
    | error e => rw [hl] at h; simp at h
    | ok w1 =>
      rw [hl] at h
      simp only [] at h
      cases hd : env.deps w1 with
      | error e => rw [hd] at h; simp at h
      | ok w2 =>
        rw [hd] at h
        simp only [] at h
        cases hb : to_internal w eid with
        | none => rw [hb] at h; simp at h
        | some b => rw [hb] at h; simp at h

/-- Witness for C1: with the stale binding of `wBound` (`sync_date = 9 >
write_date = 5`), `run` returns the up-to-date outcome. -/
theorem run_uptodate_skip_iff_witness :
    (run envOk wBound "ext-7" false).1 = .ok (some "Already up-to-date.") :=
  (run_uptodate_skip_iff envOk wBound "ext-7" rec5 rfl rfl).mpr
    ⟨5, rfl, { id := 3, sync_date := some 9 }, rfl, 9, rfl, by decide⟩

/-! ## C4 -/

/-- C4: `run(external_id, force=True)` never terminates with the
`"Already up-to-date."` outcome, whatever the world and environment —
including those where the non-forced check would skip. -/
theorem run_force_never_uptodate_skip (env : Env) (w : World) (eid : String) :
    (run env w eid true).1 ≠ .ok (some "Already up-to-date.") := by
  unfold run
  cases hr : env.read eid with
  | error e => cases e <;> simp
  | ok r =>
    cases hm : truthyStr (env.must_skip r eid) with
    | true => simp [hm]
    | false =>
      simp only [hm, Bool.false_eq_true, if_false, Bool.not_true, Bool.false_and]
      cases hl : advisory_lock_or_retry w
          (mkLockName env.backend_name env.backend_id env.model_name eid) with
      | error e => simp
      | ok w1 =>
        simp only []
        cases hd : env.deps w1 with
        | error e => simp
        | ok w2 =>
          simp only []
          cases hb : to_internal w eid <;> simp

/-! ## C5 -/

/-- C5: when the adapter's `read` raises `IDMissingInBackend`, `run`
returns the informational "record no longer exists" outcome instead of
raising, the world is unchanged (so no binder mutation: no bind, no
create, no update), and no collaborator beyond the adapter was called. -/
theorem run_missing_record_no_mutation (env : Env) (w : World) (eid : String) (force : Bool)
    (h : env.read eid = .error .idMissingInBackend) :
    run env w eid force =
      (.ok (some "Record does no longer exist in Odoo"), w, [.readE eid]) := by
  unfold run
  rw [h]

/-- Environment whose adapter raises `IDMissingInBackend` on every read. -/
def envMissing : Env := { envOk with read := fun _ => .error .idMissingInBackend }

/-- Witness for C5 at a concrete input. -/
theorem run_missing_record_no_mutation_witness :
    run envMissing w0 "ext-7" false =
      (.ok (some "Record does no longer exist in Odoo"), w0, [.readE "ext-7"]) :=
  run_missing_record_no_mutation envMissing w0 "ext-7" false rfl

/-! ## C2 -/

/-- C2 (evidence of the divergence): when the must-skip hook returns a
non-empty reason string, `run` does terminate at that point, but — because
the source reads `if self._must_skip(): return` — it returns `None`,
discarding the reason string instead of returning it as the outcome (which
is what the spec and `_must_skip`'s own docstring, "the message recorded in
the job", require). -/
theorem run_must_skip_returns_none (env : Env) (w : World) (eid : String) (force : Bool)
    (r : RawRecord) (reason : String)
    (hread : env.read eid = .ok r)
    (hm : env.must_skip r eid = some reason)
    (hne : reason ≠ "") :
    run env w eid force = (.ok none, w, [.readE eid]) := by
  unfold run
  rw [hread]
  have ht : truthyStr (env.must_skip r eid) = true := by
    rw [hm]
    simpa [truthyStr, bne_iff_ne] using hne
  simp only [ht, if_true]

/-- Environment whose must-skip hook always returns the reason
`"manual skip"`. -/
def envSkip : Env := { envOk with must_skip := fun _ _ => some "manual skip" }

/-- Witness for C2's theorem at a concrete input: the reason
`"manual skip"` is discarded and `run` returns `none`. -/
theorem run_must_skip_returns_none_witness :
    run envSkip w0 "ext-7" false = (.ok none, w0, [.readE "ext-7"]) :=
  run_must_skip_returns_none envSkip w0 "ext-7" false rec5 "manual skip" rfl rfl (by decide)

/-! ## C3 -/

/-- C3: every run that passes the early-exit checks (its trace records the
advisory-lock acquisition) and completes performs exactly one of: an update
of the existing binding (when the pre-lock binding lookup found one) or a
create (when it found none) — never both — and in both branches calls
`binder.bind` exactly once. -/
theorem run_create_xor_update_then_bind (env : Env) (w : World) (eid : String)
    (force : Bool) (res : Except ImpError (Option String)) (w1 : World) (tr : List Event)
    (h : run env w eid force = (res, w1, tr))
    (hok : res = .ok none)
    (hlock : tr.any isLockE = true) :
    tr.countP isUpdateE = (if (to_internal w eid).isSome then 1 else 0) ∧
    tr.countP isCreateE = (if (to_internal w eid).isSome then 0 else 1) ∧
    tr.countP isBindE = 1 := by
  subst hok
  unfold run at h
  cases hr : env.read eid with
  | error e =>
    cases e <;> (rw [hr] at h; simp only [] at h; injection h with h1 h23) <;> simp at h1
  | ok r =>
    rw [hr] at h
    simp only [] at h
    cases hm : truthyStr (env.must_skip r eid) with
    | true =>
      simp only [hm, if_true] at h
      injection h with h1 h23
      injection h23 with h2 h3
      rw [← h3] at hlock
      simp [List.any, isLockE] at hlock
    | false =>
      simp only [hm, Bool.false_eq_true, if_false] at h
      cases hc : (!force && is_uptodate r (to_internal w eid)) with
      | true =>
        rw [hc] at h
        simp only [if_true] at h
        injection h with h1 h23
        simp at h1
      | false =>
        rw [hc] at h
        simp only [Bool.false_eq_true, if_false] at h
        cases hl : advisory_lock_or_retry w
            (mkLockName env.backend_name env.backend_id env.model_name eid) with
        | error e =>
          rw [hl] at h
          simp only [] at h
          injection h with h1 h23
          simp at h1
        | ok wl =>
          rw [hl] at h
          simp only [] at h
          cases hd : env.deps wl with
          | error e =>
            rw [hd] at h
            simp only [] at h
            injection h with h1 h23
            simp at h1
          | ok w2 =>
            rw [hd] at h
            simp only [] at h
            cases hb : to_internal w eid with
            | some b =>
              rw [hb] at h
              simp only [] at h
              injection h with h1 h23
              injection h23 with h2 h3
              subst h3
              simp [hb, List.countP_cons, isUpdateE, isCreateE, isBindE]
            | none =>
              rw [hb] at h
              simp only [] at h
              injection h with h1 h23
              injection h23 with h2 h3
              subst h3
              simp [hb, List.countP_cons, isUpdateE, isCreateE, isBindE]

/-- Witness for C3 at a concrete input: a fresh external id is created
(not updated) and bound exactly once. -/
theorem run_create_xor_update_then_bind_witness :
    ((run envOk w0 "ext-7" false).2.2).countP isUpdateE =
        (if (to_internal w0 "ext-7").isSome then 1 else 0) ∧
    ((run envOk w0 "ext-7" false).2.2).countP isCreateE =
        (if (to_internal w0 "ext-7").isSome then 0 else 1) ∧
    ((run envOk w0 "ext-7" false).2.2).countP isBindE = 1 :=
  run_create_xor_update_then_bind envOk w0 "ext-7" false
    (run envOk w0 "ext-7" false).1 (run envOk w0 "ext-7" false).2.1
    (run envOk w0 "ext-7" false).2.2 rfl rfl rfl

/-! ## C10 -/

/-- C10: in any run that fetched its record and was not stopped by the
must-skip hook, `binder.to_internal` is called exactly once for the
record's own external id, immediately after the fetch — hence before the
up-to-date check and before any advisory-lock acquisition — and never
again: the create-vs-update decision reuses that pre-lock lookup result. -/
theorem run_single_pre_lock_binding_lookup (env : Env) (w : World) (eid : String)
    (force : Bool) (r : RawRecord)
    (res : Except ImpError (Option String)) (w1 : World) (tr : List Event)
    (h : run env w eid force = (res, w1, tr))
    (hread : env.read eid = .ok r)
    (hskip : truthyStr (env.must_skip r eid) = false) :
    ∃ rest, tr = .readE eid :: .toInternalE eid :: rest ∧
      rest.countP (isToInternalE eid) = 0 ∧
      tr.countP (isToInternalE eid) = 1 := by
  unfold run at h
  rw [hread] at h
  simp only [hskip, Bool.false_eq_true, if_false] at h
  cases hc : (!force && is_uptodate r (to_internal w eid)) with
  | true =>
    rw [hc] at h
    simp only [if_true] at h
    injection h with h1 h23
    injection h23 with h2 h3
    subst h3
    exact ⟨[], rfl, by simp, by simp [List.countP_cons, isToInternalE]⟩
  | false =>
    rw [hc] at h
    simp only [Bool.false_eq_true, if_false] at h
    cases hl : advisory_lock_or_retry w
        (mkLockName env.backend_name env.backend_id env.model_name eid) with
    | error e =>
      rw [hl] at h
      simp only [] at h
      injection h with h1 h23
      injection h23 with h2 h3
      subst h3
      exact ⟨[], rfl, by simp, by simp [List.countP_cons, isToInternalE]⟩
    | ok wl =>
      rw [hl] at h
      simp only [] at h
      cases hd : env.deps wl with
      | error e =>
        rw [hd] at h
        simp only [] at h
        injection h with h1 h23
        injection h23 with h2 h3
        subst h3
        refine ⟨[.lockE (mkLockName env.backend_name env.backend_id env.model_name eid)],
          rfl, by simp [List.countP_cons, isToInternalE], ?_⟩
        simp [List.countP_cons, isToInternalE]
      | ok w2 =>
        rw [hd] at h
        simp only [] at h
        cases hb : to_internal w eid with
        | some b =>
          rw [hb] at h
          simp only [] at h
          injection h with h1 h23
          injection h23 with h2 h3
          subst h3
          refine ⟨[.lockE (mkLockName env.backend_name env.backend_id env.model_name eid),
            .updateE b.id (env.map_values r false), .bindE eid b.id],
            rfl, by simp [List.countP_cons, isToInternalE], ?_⟩
          simp [List.countP_cons, isToInternalE]
        | none =>
          rw [hb] at h
          simp only [] at h
          injection h with h1 h23
          injection h23 with h2 h3
          subst h3
          refine ⟨[.lockE (mkLockName env.backend_name env.backend_id env.model_name eid),
            .createE w2.next_id (env.map_values r true), .bindE eid w2.next_id],
            rfl, by simp [List.countP_cons, isToInternalE], ?_⟩
          simp [List.countP_cons, isToInternalE]

/-- Witness for C10 at a concrete input. -/
theorem run_single_pre_lock_binding_lookup_witness :
    ∃ rest, (run envOk w0 "ext-7" false).2.2 =
        .readE "ext-7" :: .toInternalE "ext-7" :: rest ∧
      rest.countP (isToInternalE "ext-7") = 0 ∧
      ((run envOk w0 "ext-7" false).2.2).countP (isToInternalE "ext-7") = 1 :=
  run_single_pre_lock_binding_lookup envOk w0 "ext-7" false rec5
    (run envOk w0 "ext-7" false).1 (run envOk w0 "ext-7" false).2.1
    (run envOk w0 "ext-7" false).2.2 rfl rfl rfl

/-! ## C6 -/

/-- C6 counterexample: with an adapter for which the record no longer
exists upstream, the first `_import_dependency(eid, always=False)` invokes
the nested run (which terminates benignly without binding anything), and
the second call invokes the nested run again — it is not a no-op, so the
nested import is performed twice. -/
theorem import_dependency_twice_counterexample :
    ((import_dependency envMissing w0 "ext-7" false).2.2).isSome = true ∧
    ((import_dependency envMissing
        (import_dependency envMissing w0 "ext-7" false).2.1
        "ext-7" false).2.2).isSome = true := by
  constructor <;> rfl

/-- A run that completed (`.ok none`) after acquiring the advisory lock
leaves its external id bound: the final `binder.bind` put the binding at
the head of the binder table. -/
theorem run_ok_binds (env : Env) (w : World) (eid : String) (force : Bool)
    (res : Except ImpError (Option String)) (w1 : World) (tr : List Event)
    (h : run env w eid force = (res, w1, tr))
    (hok : res = .ok none)
    (hlock : tr.any isLockE = true) :
    (to_internal w1 eid).isSome = true := by
  subst hok
  unfold run at h
  cases hr : env.read eid with
  | error e =>
    cases e <;> (rw [hr] at h; simp only [] at h; injection h with h1 h23) <;> simp at h1
  | ok r =>
    rw [hr] at h
    simp only [] at h
    cases hm : truthyStr (env.must_skip r eid) with
    | true =>
      simp only [hm, if_true] at h
      injection h with h1 h23
      injection h23 with h2 h3
      rw [← h3] at hlock
      simp [List.any, isLockE] at hlock
    | false =>
      simp only [hm, Bool.false_eq_true, if_false] at h
      cases hc : (!force && is_uptodate r (to_internal w eid)) with
      | true =>
        rw [hc] at h
        simp only [if_true] at h
        injection h with h1 h23
        simp at h1
      | false =>
        rw [hc] at h
        simp only [Bool.false_eq_true, if_false] at h
        cases hl : advisory_lock_or_retry w
            (mkLockName env.backend_name env.backend_id env.model_name eid) with
        | error e =>
          rw [hl] at h
          simp only [] at h
          injection h with h1 h23
          simp at h1
        | ok wl =>
          rw [hl] at h
          simp only [] at h
          cases hd : env.deps wl with
          | error e =>
            rw [hd] at h
            simp only [] at h
            injection h with h1 h23
            simp at h1
          | ok w2 =>
            rw [hd] at h
            simp only [] at h
            cases hb : to_internal w eid with
            | some b =>
              rw [hb] at h
              simp only [] at h
              injection h with h1 h23
              injection h23 with h2 h3
              rw [← h2]
              simp [to_internal, binder_bind, List.lookup]
            | none =>
              rw [hb] at h
              simp only [] at h
              injection h with h1 h23
              injection h23 with h2 h3
              rw [← h2]
              simp [to_internal, binder_bind, List.lookup]

/-- C6 (amended): when the first `_import_dependency(eid, always=False)`
call's nested run completes (binds the external id), the second call is a
no-op — the nested importer is not invoked again because
`binder.to_internal` now returns the existing binding. (As the
counterexample shows, this cannot be strengthened to arbitrary first runs:
a nested run that terminates early without binding leaves the second call
free to invoke the import again.) -/
theorem import_dependency_second_call_noop (env : Env) (w : World) (eid : String)
    (heid : ¬ eid = "")
    (hnb : to_internal w eid = none)
    (res : Except ImpError (Option String)) (w1 : World) (tr : List Event)
    (hrun : run env w eid false = (res, w1, tr))
    (hok : res = .ok none)
    (hlock : tr.any isLockE = true) :
    import_dependency env w eid false = (.ok (), w1, some (.ok none)) ∧
    import_dependency env w1 eid false = (.ok (), w1, none) := by
  have hb1 : (to_internal w1 eid).isSome = true :=
    run_ok_binds env w eid false res w1 tr hrun hok hlock
  subst hok
  constructor
  · unfold import_dependency
    rw [if_neg heid]
    simp only [hnb, Option.isNone_none, Bool.or_true, if_true]
    rw [hrun]
  · unfold import_dependency
    rw [if_neg heid]
    obtain ⟨b, hb⟩ := Option.isSome_iff_exists.mp hb1
    simp only [hb, Option.isNone_some, Bool.or_false, Bool.false_eq_true, if_false]

/-- Witness for C6's amended theorem: after a successful nested import of a
fresh external id, the second dependency call is a no-op. -/
theorem import_dependency_second_call_noop_witness :
    import_dependency envOk w0 "ext-7" false =
      (.ok (), (run envOk w0 "ext-7" false).2.1, some (.ok none)) ∧
    import_dependency envOk (run envOk w0 "ext-7" false).2.1 "ext-7" false =
      (.ok (), (run envOk w0 "ext-7" false).2.1, none) :=
  import_dependency_second_call_noop envOk w0 "ext-7" (by decide) rfl
    (run envOk w0 "ext-7" false).1 (run envOk w0 "ext-7" false).2.1
    (run envOk w0 "ext-7" false).2.2 rfl rfl rfl

/-! ## C7 -/

/-- C7: `NothingToDoJob` raised by the nested run inside
`_import_dependency` is caught there (the call still succeeds); any other
exception from the nested run propagates; and the same `NothingToDoJob`
arising in another context — here, raised by the `_import_dependencies`
step inside a parent `run` — is not suppressed and propagates out of that
`run`. -/
theorem dependency_nothing_to_do_handling (env : Env) (w : World) (eid : String) :
    ((¬ eid = "") → to_internal w eid = none →
      ((run env w eid false).1 = .error .nothingToDo →
        (import_dependency env w eid false).1 = .ok ()) ∧
      (∀ e : ImpError, (run env w eid false).1 = .error e → ¬ e = .nothingToDo →
        (import_dependency env w eid false).1 = .error e)) ∧
    (∀ r : RawRecord, env.read eid = .ok r →
      truthyStr (env.must_skip r eid) = false →
      is_uptodate r (to_internal w eid) = false →
      ¬ (mkLockName env.backend_name env.backend_id env.model_name eid) ∈ w.locks →
      (∀ w2 : World, env.deps w2 = .error .nothingToDo) →
      (run env w eid false).1 = .error .nothingToDo) := by
  constructor
  · intro heid hnb
    constructor
    · intro hntd
      unfold import_dependency
      rw [if_neg heid]
      simp only [hnb, Option.isNone_none, Bool.or_true, if_true]
      rcases hr : run env w eid false with ⟨rres, w1, tr⟩
      rw [hr] at hntd
      simp only [] at hntd
      subst hntd
      rfl
    · intro e hre hne
      unfold import_dependency
      rw [if_neg heid]
      simp only [hnb, Option.isNone_none, Bool.or_true, if_true]
      rcases hr : run env w eid false with ⟨rres, w1, tr⟩
      rw [hr] at hre
      simp only [] at hre
      subst hre
      cases e with
      | retry k => rfl
      | nothingToDo => exact absurd rfl hne
      | other m => rfl
  · intro r hread hms hupto hnl hdeps
    unfold run
    rw [hread]
    simp only [hms, Bool.false_eq_true, if_false, Bool.not_false, Bool.true_and,
      hupto]
    cases hl : advisory_lock_or_retry w
        (mkLockName env.backend_name env.backend_id env.model_name eid) with
    | error u =>
      exfalso
      unfold advisory_lock_or_retry at hl
      rw [if_neg hnl] at hl
      exact absurd hl (by simp)
    | ok wl =>
      simp only []
      rw [hdeps wl]

/-- Environment whose dependencies hook raises `NothingToDoJob`. -/
def envNTD : Env := { envOk with deps := fun _ => .error .nothingToDo }

/-- Environment whose dependencies hook raises an unrelated exception. -/
def envBoom : Env := { envOk with deps := fun _ => .error (.other "boom") }

/-- Witness for C7 at concrete inputs: `NothingToDoJob` from the nested
run is swallowed, an unrelated exception propagates, and a parent `run`
whose dependencies step raises `NothingToDoJob` propagates it. -/
theorem dependency_nothing_to_do_handling_witness :
    (import_dependency envNTD w0 "ext-7" false).1 = .ok () ∧
    (import_dependency envBoom w0 "ext-7" false).1 = .error (.other "boom") ∧
    (run envNTD w0 "ext-7" false).1 = .error .nothingToDo := by
  refine ⟨?_, ?_, ?_⟩
  · exact ((dependency_nothing_to_do_handling envNTD w0 "ext-7").1 (by decide) rfl).1 rfl
  · exact ((dependency_nothing_to_do_handling envBoom w0 "ext-7").1 (by decide) rfl).2
      (.other "boom") rfl (by decide)
  · exact (dependency_nothing_to_do_handling envNTD w0 "ext-7").2 rec5 rfl rfl rfl
      (List.not_mem_nil _) (fun _ => rfl)

/-! ## C9 -/

/-- C9: `_import_dependency` invokes the nested run with `force` left at
its default `False`; hence even with `always = True` an already-bound,
up-to-date dependency terminates with the up-to-date skip — nothing is
re-imported and the world is unchanged. -/
theorem import_dependency_always_uptodate_skip (env : Env) (w : World) (eid : String)
    (r : RawRecord) (b : Binding) (m s : Nat)
    (heid : ¬ eid = "")
    (hread : env.read eid = .ok r)
    (hms : truthyStr (env.must_skip r eid) = false)
    (hb : to_internal w eid = some b)
    (hm : r.write_date = some m) (hs : b.sync_date = some s) (hlt : m < s) :
    import_dependency env w eid true =
      (.ok (), w, some (.ok (some "Already up-to-date."))) := by
  have hu : is_uptodate r (to_internal w eid) = true :=
    (is_uptodate_true_iff r _).mpr ⟨m, hm, b, hb, s, hs, hlt⟩
  have hrun : run env w eid false =
      (.ok (some "Already up-to-date."), w, [.readE eid, .toInternalE eid]) := by
    unfold run
    rw [hread]
    simp only [hms, Bool.false_eq_true, if_false, Bool.not_false, Bool.true_and,
      hu, if_true]
  unfold import_dependency
  rw [if_neg heid]
  simp only [Bool.true_or, if_true]
  rw [hrun]

/-- Witness for C9 at a concrete input: the bound, stale-checked
`"ext-7"` is not re-imported even with `always = True`. -/
theorem import_dependency_always_uptodate_skip_witness :
    import_dependency envOk wBound "ext-7" true =
      (.ok (), wBound, some (.ok (some "Already up-to-date."))) :=
  import_dependency_always_uptodate_skip envOk wBound "ext-7" rec5
    { id := 3, sync_date := some 9 } 5 9 (by decide) rfl rfl rfl rfl rfl (by decide)

/-! ## C8 -/

/-- A successful advisory-lock acquisition adds the key to the held set. -/
theorem advisory_lock_ok (w : World) (key : String) (wl : World)
    (h : advisory_lock_or_retry w key = .ok wl) :
    wl = { w with locks := key :: w.locks } ∧ key ∈ wl.locks := by
  unfold advisory_lock_or_retry at h
  split at h
  · exact absurd h (by simp)
  · injection h with h1
    subst h1
    exact ⟨rfl, by simp⟩

/-- Every `lockE` event in a run's trace carries the run's own composite
lock key, and — provided the dependencies hook never drops held locks —
that key is still held in the world the run returns (the importer never
releases it; only transaction end would). -/
theorem run_lock_held (env : Env) (w : World) (eid : String) (force : Bool)
    (res : Except ImpError (Option String)) (w1 : World) (tr : List Event) (k : String)
    (h : run env w eid force = (res, w1, tr))
    (hdeps : ∀ wa wb, env.deps wa = .ok wb → ∀ q, q ∈ wa.locks → q ∈ wb.locks)
    (hk : Event.lockE k ∈ tr) :
    k = mkLockName env.backend_name env.backend_id env.model_name eid ∧
      k ∈ w1.locks := by
  unfold run at h
  cases hr : env.read eid with
  | error e =>
    cases e <;> (rw [hr] at h; simp only [] at h; injection h with h1 h23) <;>
      (injection h23 with h2 h3; rw [← h3] at hk; simp at hk)
  | ok r =>
    rw [hr] at h
    simp only [] at h
    cases hm : truthyStr (env.must_skip r eid) with
    | true =>
      simp only [hm, if_true] at h
      injection h with h1 h23
      injection h23 with h2 h3
      rw [← h3] at hk
      simp at hk
    | false =>
      simp only [hm, Bool.false_eq_true, if_false] at h
      cases hc : (!force && is_uptodate r (to_internal w eid)) with
      | true =>
        rw [hc] at h
        simp only [if_true] at h
        injection h with h1 h23
        injection h23 with h2 h3
        rw [← h3] at hk
        simp at hk
      | false =>
        rw [hc] at h
        simp only [Bool.false_eq_true, if_false] at h
        cases hl : advisory_lock_or_retry w
            (mkLockName env.backend_name env.backend_id env.model_name eid) with
        | error e =>
          rw [hl] at h
          simp only [] at h
          injection h with h1 h23
          injection h23 with h2 h3
          rw [← h3] at hk
          simp at hk
        | ok wl =>
          obtain ⟨hwl, hmem⟩ := advisory_lock_ok w
            (mkLockName env.backend_name env.backend_id env.model_name eid) wl hl
          rw [hl] at h
          simp only [] at h
          cases hd : env.deps wl with
          | error e =>
            rw [hd] at h
            simp only [] at h
            injection h with h1 h23
            injection h23 with h2 h3
            rw [← h3] at hk
            simp at hk
            subst hk
            exact ⟨rfl, h2 ▸ hmem⟩
          | ok w2 =>
            have hmem2 : mkLockName env.backend_name env.backend_id
                env.model_name eid ∈ w2.locks :=
              hdeps wl w2 hd _ hmem
            rw [hd] at h
            simp only [] at h
            cases hb : to_internal w eid with
            | some b =>
              rw [hb] at h
              simp only [] at h
              injection h with h1 h23
              injection h23 with h2 h3
              rw [← h3] at hk
              simp at hk
              subst hk
              refine ⟨rfl, ?_⟩
              rw [← h2]
              simpa [binder_bind] using hmem2
            | none =>
              rw [hb] at h
              simp only [] at h
              injection h with h1 h23
              injection h23 with h2 h3
              rw [← h3] at hk
              simp at hk
              subst hk
              refine ⟨rfl, ?_⟩
              rw [← h2]
              simpa [binder_bind] using hmem2

/-- C8: advisory-lock mutual exclusion. If a first run for
(backend identity, target model, external id) acquired the lock (its trace
records the acquisition) and still holds it — the lock is only released at
transaction end — then a second run for the same composite key that
reaches the locking step observes the retry signal: it aborts with the
world untouched, its trace showing it never proceeded past the lock. -/
theorem run_lock_mutual_exclusion (env env2 : Env) (w : World) (eid : String)
    (f1 f2 : Bool) (res1 : Except ImpError (Option String)) (w1 : World)
    (tr1 : List Event) (k : String) (r : RawRecord)
    (hname : env2.backend_name = env.backend_name)
    (hid : env2.backend_id = env.backend_id)
    (hmodel : env2.model_name = env.model_name)
    (hdeps : ∀ wa wb, env.deps wa = .ok wb → ∀ q, q ∈ wa.locks → q ∈ wb.locks)
    (h1 : run env w eid f1 = (res1, w1, tr1))
    (hk : Event.lockE k ∈ tr1)
    (hread : env2.read eid = .ok r)
    (hms : truthyStr (env2.must_skip r eid) = false)
    (hupto : (!f2 && is_uptodate r (to_internal w1 eid)) = false) :
    run env2 w1 eid f2 =
      (.error (.retry
        (mkLockName env2.backend_name env2.backend_id env2.model_name eid)),
       w1, [.readE eid, .toInternalE eid]) := by
  obtain ⟨hkey, hheld⟩ := run_lock_held env w eid f1 res1 w1 tr1 k h1 hdeps hk
  have hsame : mkLockName env2.backend_name env2.backend_id env2.model_name eid =
      mkLockName env.backend_name env.backend_id env.model_name eid := by
    rw [hname, hid, hmodel]
  have hlock2 : advisory_lock_or_retry w1
      (mkLockName env2.backend_name env2.backend_id env2.model_name eid) =
      .error () := by
    unfold advisory_lock_or_retry
    rw [if_pos]
    rw [hsame, ← hkey]
    exact hheld
  unfold run
  rw [hread]
  simp only [hms, Bool.false_eq_true, if_false, hupto]
  rw [hlock2]

/-- Witness for C8 at concrete inputs: a completed first run on the empty
world holds the lock, and a second (even forced) run for the same key
aborts with the retry signal. -/
theorem run_lock_mutual_exclusion_witness :
    run envOk (run envOk w0 "ext-7" false).2.1 "ext-7" true =
      (.error (.retry
        (mkLockName envOk.backend_name envOk.backend_id envOk.model_name "ext-7")),
       (run envOk w0 "ext-7" false).2.1,
       [.readE "ext-7", .toInternalE "ext-7"]) := by
  have hdeps : ∀ wa wb, envOk.deps wa = .ok wb → ∀ q, q ∈ wa.locks → q ∈ wb.locks := by
    intro wa wb hab q hq
    have h3 : (Except.ok wa : Except ImpError World) = Except.ok wb := hab
    injection h3 with h4
    exact h4 ▸ hq
  exact run_lock_mutual_exclusion envOk envOk w0 "ext-7" false true
    (run envOk w0 "ext-7" false).1 (run envOk w0 "ext-7" false).2.1
    (run envOk w0 "ext-7" false).2.2
    (mkLockName envOk.backend_name envOk.backend_id envOk.model_name "ext-7")
    rec5 rfl rfl rfl hdeps rfl (by decide) rfl rfl rfl
